import Mathlib

/-!
# Traffic junction control loop (script.js)

A shallow embedding of the lane registry, the pairing and light tables, the
light controller and the cycle scheduler of `script.js`, followed by the
properties established about them.

JavaScript objects with a fixed key set are embedded as total functions on the
key type together with the declaration order of the keys (`laneKeys`), which is
the order in which `for (let lane in ...)` visits them.  Object literals used
as lookup tables (`lanePairs`, `laneToLight`) are association lists, so a
missing key is `none` as it is `undefined` in the source.
-/

namespace Traffic

/-! ## Data model -/

/-- The eight lane identifiers; `negXtop` stands for the key `'-xtop'`, and so on. -/
inductive Lane where
  | xtop | xbottom | yleft | yright | negXtop | negXbottom | negYleft | negYright
  deriving DecidableEq, Repr, Fintype

/-- The keys of `vehicleCounts`, `ambulanceCounts` and `vehicleElements` in
declaration order (script.js lines 6-8): the order of every `for ... in` loop. -/
def laneKeys : List Lane :=
  [.xtop, .xbottom, .yleft, .yright, .negXtop, .negXbottom, .negYleft, .negYright]

/-- The lane named by a `laneId` string, following the `if / else if` chain of
`addVehicleToLane` (lines 43-76); `none` is the final `else` (unknown lane). -/
def Lane.ofId (laneId : String) : Option Lane :=
  if laneId = "-xtop" then some .negXtop
  else if laneId = "xtop" then some .xtop
  else if laneId = "xbottom" then some .xbottom
  else if laneId = "-xbottom" then some .negXbottom
  else if laneId = "-yleft" then some .negYleft
  else if laneId = "yleft" then some .yleft
  else if laneId = "yright" then some .yright
  else if laneId = "-yright" then some .negYright
  else none

/-- The `img` element created by `addVehicleToLane`: `alt` is the vehicle type
(line 35) and `lane` is `dataset.lane` (line 103). -/
structure Vehicle where
  alt : String
  lane : Lane
  deriving DecidableEq, Repr

/-- The three global objects of lines 6-8. -/
structure Registry where
  vehicleCounts : Lane → Nat
  ambulanceCounts : Lane → Nat
  vehicleElements : Lane → List Vehicle

/-- The registry as declared at lines 6-8: all counts zero, all queues empty. -/
def Registry.initial : Registry :=
  { vehicleCounts := fun _ => 0
    ambulanceCounts := fun _ => 0
    vehicleElements := fun _ => [] }

/-- The four light groups: the classes `top-light`, `bottom-light`,
`left-light`, `right-light`. -/
inductive LightGroup where
  | top | bottom | left | right
  deriving DecidableEq, Repr, Fintype

/-- The bulb classes passed to `setTrafficLightColor`. -/
inductive Color where
  | red | yellow | green
  deriving DecidableEq, Repr, Fintype

/-- Modelled from the spec: the HTML document is not part of the sources, so
the light fixtures are taken as the spec describes them: four light groups,
each present in the document, each with one bulb per colour.  A value of this
type records, for every bulb, whether it carries the class `active`. -/
abbrev Lights := LightGroup → Color → Bool

/-- The table `laneToLight` (lines 115-124), entries in source order. -/
def laneToLight : List (Lane × LightGroup) :=
  [(.xtop, .top), (.negXtop, .top), (.xbottom, .bottom), (.negXbottom, .bottom),
   (.yleft, .left), (.negYleft, .left), (.yright, .right), (.negYright, .right)]

/-- The table `lanePairs` (lines 164-173), entries in source order. -/
def lanePairs : List (Lane × Lane) :=
  [(.xtop, .negXtop), (.negXtop, .xtop), (.xbottom, .negXbottom), (.negXbottom, .xbottom),
   (.yright, .negYright), (.negYright, .yright), (.yleft, .negYleft), (.negYleft, .yleft)]

/-- The function `getPairedLane` (lines 176-178): `lanePairs[lane]`. -/
def getPairedLane (lane : Lane) : Option Lane :=
  lanePairs.lookup lane

/-! ## Lane registry -/

/-- The function `addVehicleToLane` (lines 32-112), registry part: an unknown lane
returns before any counter is touched (lines 73-76); otherwise the count is
incremented, the image is pushed on the queue, and the ambulance count is
incremented when the type is `ambulance` (lines 107-111).  The document calls
in between (lines 33-36, 79-104) are presentation and are taken to succeed. -/
def addVehicleToLane (laneId vehicleType : String) (r : Registry) : Registry :=
  match Lane.ofId laneId with
  | none => r
  | some lane =>
    let img : Vehicle := { alt := vehicleType, lane := lane }
    { vehicleCounts := Function.update r.vehicleCounts lane (r.vehicleCounts lane + 1)
      vehicleElements := Function.update r.vehicleElements lane (r.vehicleElements lane ++ [img])
      ambulanceCounts :=
        if vehicleType = "ambulance" then
          Function.update r.ambulanceCounts lane (r.ambulanceCounts lane + 1)
        else r.ambulanceCounts }

/-- The departure callback scheduled by `moveVehicles` (lines 336-341): the
queue of `targetLane` is replaced by an empty one and both counts are zeroed. -/
def clearLane (targetLane : Lane) (r : Registry) : Registry :=
  { vehicleElements := Function.update r.vehicleElements targetLane []
    vehicleCounts := Function.update r.vehicleCounts targetLane 0
    ambulanceCounts := Function.update r.ambulanceCounts targetLane 0 }

/-- One iteration of the loop of the delete handler (lines 296-299). -/
def resetLane (r : Registry) (lane : Lane) : Registry :=
  { vehicleCounts := Function.update r.vehicleCounts lane 0
    ambulanceCounts := Function.update r.ambulanceCounts lane 0
    vehicleElements := Function.update r.vehicleElements lane [] }

/-- The loop of the delete handler (lines 295-300) over every key. -/
def resetAll (r : Registry) : Registry :=
  laneKeys.foldl resetLane r

/-- The function `hasVehicles` (lines 156-161). -/
def hasVehicles (r : Registry) : Bool :=
  laneKeys.any (fun lane => decide (r.vehicleCounts lane > 0))

/-- The mutations of the registry: a drop or random fill (`add`), a departure
callback (`clear`), the delete button (`reset`). -/
inductive RegistryOp where
  | add (laneId vehicleType : String)
  | clear (lane : Lane)
  | reset

/-- The effect of one mutation. -/
def RegistryOp.apply : RegistryOp → Registry → Registry
  | .add laneId vehicleType, r => addVehicleToLane laneId vehicleType r
  | .clear lane, r => clearLane lane r
  | .reset, r => resetAll r

/-- The registry after a sequence of mutations, oldest first. -/
def applyOps (ops : List RegistryOp) (r : Registry) : Registry :=
  ops.foldl (fun acc op => op.apply acc) r

/-- The number of queued vehicles of type ambulance. -/
def ambulancesQueued (r : Registry) (lane : Lane) : Nat :=
  (r.vehicleElements lane).countP (fun v => decide (v.alt = "ambulance"))

/-! ## Light controller -/

/-- The statement `group.querySelectorAll('circle').forEach(c => c.classList.remove('active'))`
(lines 144 and 236): every bulb of one group loses `active`. -/
def groupOff (group : LightGroup) (lights : Lights) : Lights :=
  Function.update lights group (fun _ => false)

/-- The function `clearAllLights` (lines 129-133): every bulb of every group loses `active`. -/
def clearAllLights (_lights : Lights) : Lights :=
  fun _ _ => false

/-- The function `setTrafficLightColor` (lines 136-149).  The argument is `none`
for `undefined`, for which `laneToLight[laneId]` is missing and the function
returns at line 138. -/
def setTrafficLightColor (laneId : Option Lane) (color : Color) (lights : Lights) : Lights :=
  match laneId.bind (fun lane => laneToLight.lookup lane) with
  | none => lights
  | some group =>
    let cleared := groupOff group lights
    Function.update cleared group (Function.update (cleared group) color true)

/-! ## Cycle scheduler -/

/-- The constant `GREEN_DURATION_MS` (line 11). -/
def GREEN_DURATION_MS : Nat := 1000

/-- The constant `YELLOW_DURATION_MS` (line 12). -/
def YELLOW_DURATION_MS : Nat := 150

/-- The delay between two cycles (line 271). -/
def CYCLE_DELAY_MS : Nat := 500

/-- The delay of the departure callback (line 341). -/
def DEPARTURE_MS : Nat := 5000

/-- The whole mutable state: the registry, the bulbs, the two flags of lines
152-153, a clock in milliseconds, the pending departure callbacks (due time
and captured `targetLane`, in the order they were scheduled) and the lane
pairs reported by `console.log` at line 252. -/
structure Junction where
  reg : Registry
  lights : Lights
  isRunning : Bool
  stopRequested : Bool
  now : Nat
  timers : List (Nat × Lane)
  completed : List (Lane × Option Lane)

/-- The loop of lines 186-191: the first key whose ambulance count is positive. -/
def ambulanceScan (ambulanceCounts : Lane → Nat) : List Lane → Option Lane
  | [] => none
  | lane :: rest =>
    if ambulanceCounts lane > 0 then some lane else ambulanceScan ambulanceCounts rest

/-- The loop of lines 196-201 on the pair (`max`, `prioritizedLane`). -/
def maxScan (vehicleCounts : Lane → Nat) : List Lane → Nat × Option Lane → Nat × Option Lane
  | [], acc => acc
  | lane :: rest, (max, prioritizedLane) =>
    if vehicleCounts lane > max then maxScan vehicleCounts rest (vehicleCounts lane, some lane)
    else maxScan vehicleCounts rest (max, prioritizedLane)

/-- The value of `prioritizedLane` after lines 183-202 (`none` is `null`). -/
def selectPrioritized (r : Registry) : Option Lane :=
  match ambulanceScan r.ambulanceCounts laneKeys with
  | some lane => some lane
  | none => (maxScan r.vehicleCounts laneKeys (0, none)).2

/-- The function `moveVehicles` (lines 307-342): nothing for a missing lane (line
308); otherwise the departure callback is scheduled `DEPARTURE_MS` from now.
The translation applied to the images is presentation and is not recorded. -/
def moveVehicles (targetLane : Option Lane) (s : Junction) : Junction :=
  match targetLane with
  | none => s
  | some lane => { s with timers := s.timers ++ [(s.now + DEPARTURE_MS, lane)] }

/-- The loop of lines 206-208: every lane is commanded red. -/
def allLanesRed (lights : Lights) : Lights :=
  laneKeys.foldl (fun acc lane => setTrafficLightColor (some lane) .red acc) lights

/-- The body of the loop of lines 224-240 for one lane. -/
def settleOther (vehicleCounts : Lane → Nat) (prioritizedLane : Lane) (pairedLane : Option Lane)
    (lights : Lights) (lane : Lane) : Lights :=
  if lane = prioritizedLane ∨ some lane = pairedLane then lights
  else if vehicleCounts lane = 0 then setTrafficLightColor (some lane) .red lights
  else
    match laneToLight.lookup lane with
    | none => lights
    | some group => groupOff group lights

/-- The synchronous first part of `runTrafficCycle` (lines 181-240), up to the
GREEN wait.  The second component is `none` when the cycle returns `false` at
line 209, and otherwise the prioritized lane and its paired lane. -/
def cycleBegin (s : Junction) : Junction × Option (Lane × Option Lane) :=
  match selectPrioritized s.reg with
  | none => ({ s with lights := allLanesRed s.lights }, none)
  | some prioritizedLane =>
    if s.reg.vehicleCounts prioritizedLane = 0 then
      ({ s with lights := allLanesRed s.lights }, none)
    else
      let pairedLane := getPairedLane prioritizedLane
      let green := setTrafficLightColor pairedLane .green
        (setTrafficLightColor (some prioritizedLane) .green s.lights)
      let moved := moveVehicles pairedLane (moveVehicles (some prioritizedLane) s)
      ({ moved with
          lights := laneKeys.foldl
            (settleOther s.reg.vehicleCounts prioritizedLane pairedLane) green },
        some (prioritizedLane, pairedLane))

/-- What can happen while the scheduler is suspended: a vehicle is dropped on a
lane (the random button is a sequence of these), the delete button is clicked,
or time passes.  A click on run is ignored while a loop is active (line 260). -/
inductive Event where
  | drop (laneId vehicleType : String)
  | deleteClick
  | elapse (ms : Nat)

/-- The departure callbacks due at or before `t` run in scheduling order and
leave the pending list. -/
def fireDue (t : Nat) (s : Junction) : Junction :=
  { s with
      reg := (s.timers.filter (fun tm => decide (tm.1 ≤ t))).foldl
        (fun r tm => clearLane tm.2 r) s.reg
      timers := s.timers.filter (fun tm => !decide (tm.1 ≤ t)) }

/-- The effect of one event; `deleteClick` is the handler of lines 293-304. -/
def Event.apply : Event → Junction → Junction
  | .drop laneId vehicleType, s => { s with reg := addVehicleToLane laneId vehicleType s.reg }
  | .deleteClick, s => { s with reg := resetAll s.reg, lights := clearAllLights s.lights }
  | .elapse ms, s => fireDue (s.now + ms) { s with now := s.now + ms }

/-- The state after a sequence of events, oldest first. -/
def applyEvents (events : List Event) (s : Junction) : Junction :=
  events.foldl (fun acc e => e.apply acc) s

/-- The function `runTrafficCycle` (lines 181-255); `duringGreen` and
`duringYellow` are what happens during the two waits (lines 243 and 248). -/
def runTrafficCycle (duringGreen duringYellow : List Event) (s : Junction) : Bool × Junction :=
  match cycleBegin s with
  | (halted, none) => (false, halted)
  | (started, some (prioritizedLane, pairedLane)) =>
    let afterGreen := applyEvents duringGreen started
    let yellow := { afterGreen with
      lights := setTrafficLightColor pairedLane .yellow
        (setTrafficLightColor (some prioritizedLane) .yellow afterGreen.lights) }
    let afterYellow := applyEvents duringYellow yellow
    (true, { afterYellow with
      lights := setTrafficLightColor pairedLane .red
        (setTrafficLightColor (some prioritizedLane) .red afterYellow.lights)
      completed := afterYellow.completed ++ [(prioritizedLane, pairedLane)] })

/-- The `while` loop of the run handler (lines 266-272) when nothing but the
passing of time happens during the waits; `none` when `fuel` iterations do not
suffice. -/
def runLoop : Nat → Junction → Option Junction
  | 0, s => if hasVehicles s.reg && !s.stopRequested then none else some s
  | fuel + 1, s =>
    if hasVehicles s.reg && !s.stopRequested then
      match runTrafficCycle [.elapse GREEN_DURATION_MS] [.elapse YELLOW_DURATION_MS] s with
      | (false, s1) => some s1
      | (true, s1) => runLoop fuel ((Event.elapse CYCLE_DELAY_MS).apply s1)
    else some s

/-- The click handler of the run button (lines 258-277). -/
def runClick (fuel : Nat) (s : Junction) : Option Junction :=
  if s.isRunning then some s
  else
    (runLoop fuel { s with isRunning := true, stopRequested := false }).map
      (fun s1 => { s1 with isRunning := false })

/-- The state of a freshly loaded page with the given bulbs. -/
def Junction.initial (lights : Lights) : Junction :=
  { reg := Registry.initial, lights := lights, isRunning := false, stopRequested := false,
    now := 0, timers := [], completed := [] }

/-- Only the bulb `color` of the group is active. -/
def showsOnly (bulbs : Color → Bool) (color : Color) : Prop :=
  ∀ c, bulbs c = decide (c = color)

/-- No bulb of the group is active. -/
def isOff (bulbs : Color → Bool) : Prop :=
  ∀ c, bulbs c = false

instance (bulbs : Color → Bool) (color : Color) : Decidable (showsOnly bulbs color) :=
  inferInstanceAs (Decidable (∀ c, bulbs c = decide (c = color)))

instance (bulbs : Color → Bool) : Decidable (isOff bulbs) :=
  inferInstanceAs (Decidable (∀ c, bulbs c = false))

/-! ## Properties, helper functions and sample states used in the statements -/

/-- In every lane the queue is as long as the count says and the ambulance
count is the number of queued ambulances. -/
def RegistryInv (r : Registry) : Prop :=
  ∀ lane, (r.vehicleElements lane).length = r.vehicleCounts lane ∧
    r.ambulanceCounts lane = ambulancesQueued r lane

instance (r : Registry) : Decidable (RegistryInv r) :=
  inferInstanceAs (Decidable (∀ lane, (r.vehicleElements lane).length = r.vehicleCounts lane ∧
    r.ambulanceCounts lane = ambulancesQueued r lane))

/-- The light group of a lane, as a total function: the value of the table
`laneToLight` at that lane (see `laneToLight_lookup`). -/
def groupOf : Lane → LightGroup
  | .xtop => .top | .negXtop => .top
  | .xbottom => .bottom | .negXbottom => .bottom
  | .yleft => .left | .negYleft => .left
  | .yright => .right | .negYright => .right

/-- The paired lane as a total function: the value of the table `lanePairs` at
that lane (see `getPairedLane_eq`). -/
def pairOf : Lane → Lane
  | .xtop => .negXtop | .negXtop => .xtop
  | .xbottom => .negXbottom | .negXbottom => .xbottom
  | .yright => .negYright | .negYright => .yright
  | .yleft => .negYleft | .negYleft => .yleft

/-- The lane of a light group that every `for ... in` loop visits last. -/
def lastLaneOf : LightGroup → Lane
  | .top => .negXtop
  | .bottom => .negXbottom
  | .left => .negYleft
  | .right => .negYright

/-- The bulbs of a group in which only `color` is active. -/
def only (color : Color) : Color → Bool :=
  fun c => decide (c = color)

/-- The bulbs of a group in which nothing is active. -/
def dark : Color → Bool :=
  fun _ => false

/-- Three cars on `xtop`, two on `-xbottom` and one on `yleft`, no bulb lit. -/
def congested : Junction :=
  { Junction.initial (fun _ _ => false) with
    reg := applyOps [.add "xtop" "car", .add "xtop" "car", .add "xtop" "car",
      .add "-xbottom" "car", .add "-xbottom" "car", .add "yleft" "car"] Registry.initial }

/-- The page after a click on delete, starting from a page with no bulb lit. -/
def afterDelete : Junction :=
  Event.deleteClick.apply (Junction.initial (fun _ _ => false))

/-- One car dropped on `xtop` on a freshly loaded page with no bulb lit. -/
def oneCar : Junction :=
  (Event.drop "xtop" "car").apply (Junction.initial (fun _ _ => false))

/-- The state in which the second SELECT of the run loop started on `oneCar`
takes place: after the first cycle and the delay between cycles. -/
def beforeSecondSelect : Junction :=
  (Event.elapse CYCLE_DELAY_MS).apply
    (runTrafficCycle [.elapse GREEN_DURATION_MS] [.elapse YELLOW_DURATION_MS] oneCar).2

/-! ## Registry invariant -/

theorem registryInv_initial : RegistryInv Registry.initial := by
  intro lane
  simp [Registry.initial, ambulancesQueued]

theorem registryInv_add (laneId vehicleType : String) (r : Registry) (h : RegistryInv r) :
    RegistryInv (addVehicleToLane laneId vehicleType r) := by
  unfold addVehicleToLane
  cases hl : Lane.ofId laneId with
  | none => exact h
  | some target =>
    intro lane
    obtain ⟨h1, h2⟩ := h lane
    by_cases hEq : lane = target
    · subst hEq
      by_cases hA : vehicleType = "ambulance"
      · simp [ambulancesQueued, hA, h1, List.countP_append, List.countP_cons] at h2 ⊢
        exact h2
      · simp [ambulancesQueued, hA, h1, List.countP_append, List.countP_cons] at h2 ⊢
        exact h2
    · by_cases hA : vehicleType = "ambulance"
      · simp [ambulancesQueued, hA, hEq, Function.update_noteq hEq] at h2 ⊢
        exact ⟨h1, h2⟩
      · simp [ambulancesQueued, hA, hEq, Function.update_noteq hEq] at h2 ⊢
        exact ⟨h1, h2⟩

theorem registryInv_clear (target : Lane) (r : Registry) (h : RegistryInv r) :
    RegistryInv (clearLane target r) := by
  intro lane
  obtain ⟨h1, h2⟩ := h lane
  by_cases hEq : lane = target
  · subst hEq
    simp [clearLane, ambulancesQueued]
  · simp [clearLane, ambulancesQueued, Function.update_noteq hEq] at h2 ⊢
    exact ⟨h1, h2⟩

theorem registryInv_resetLane (r : Registry) (target : Lane) (h : RegistryInv r) :
    RegistryInv (resetLane r target) := by
  intro lane
  obtain ⟨h1, h2⟩ := h lane
  by_cases hEq : lane = target
  · subst hEq
    simp [resetLane, ambulancesQueued]
  · simp [resetLane, ambulancesQueued, Function.update_noteq hEq] at h2 ⊢
    exact ⟨h1, h2⟩

theorem registryInv_foldl_resetLane (lanes : List Lane) (r : Registry) (h : RegistryInv r) :
    RegistryInv (lanes.foldl resetLane r) := by
  induction lanes generalizing r with
  | nil => exact h
  | cons lane rest ih => exact ih _ (registryInv_resetLane r lane h)

theorem registryInv_op (op : RegistryOp) (r : Registry) (h : RegistryInv r) :
    RegistryInv (op.apply r) := by
  cases op with
  | add laneId vehicleType => exact registryInv_add laneId vehicleType r h
  | clear lane => exact registryInv_clear lane r h
  | reset => exact registryInv_foldl_resetLane laneKeys r h

theorem registryInv_applyOps (ops : List RegistryOp) (r : Registry) (h : RegistryInv r) :
    RegistryInv (applyOps ops r) := by
  unfold applyOps
  induction ops generalizing r with
  | nil => exact h
  | cons op rest ih => exact ih _ (registryInv_op op r h)

theorem ambulancesQueued_le (r : Registry) (lane : Lane) :
    ambulancesQueued r lane ≤ (r.vehicleElements lane).length := by
  unfold ambulancesQueued
  exact List.countP_le_length _

theorem registryInv_amb_le (r : Registry) (h : RegistryInv r) (lane : Lane) :
    r.ambulanceCounts lane ≤ r.vehicleCounts lane := by
  obtain ⟨h1, h2⟩ := h lane
  rw [h2, ← h1]
  exact ambulancesQueued_le r lane

/-- C5: after any finite sequence of additions (any lane id, any vehicle type),
departure clears and resets applied to the initial registry, every lane has a
queue as long as its vehicle count, an ambulance count equal to the number of
queued ambulances, and therefore an ambulance count not above its vehicle count. -/
theorem registry_invariant (ops : List RegistryOp) (lane : Lane) :
    ((applyOps ops Registry.initial).vehicleElements lane).length
        = (applyOps ops Registry.initial).vehicleCounts lane ∧
      (applyOps ops Registry.initial).ambulanceCounts lane
        = ambulancesQueued (applyOps ops Registry.initial) lane ∧
      (applyOps ops Registry.initial).ambulanceCounts lane
        ≤ (applyOps ops Registry.initial).vehicleCounts lane := by
  have h := registryInv_applyOps ops Registry.initial registryInv_initial
  exact ⟨(h lane).1, (h lane).2, registryInv_amb_le _ h lane⟩

/-! ## Pairing -/

/-- C4: for every lane the paired lane is defined, is one of the eight lanes,
and its own paired lane is the lane started from. -/
theorem getPairedLane_symmetric_total (lane : Lane) :
    ∃ paired, getPairedLane lane = some paired ∧ paired ∈ laneKeys ∧
      getPairedLane paired = some lane := by
  cases lane <;> exact ⟨_, rfl, by decide, rfl⟩

/-! ## SELECT -/

theorem mem_laneKeys (lane : Lane) : lane ∈ laneKeys := by
  cases lane <;> decide

theorem ambulanceScan_some (ac : Lane → Nat) (lanes : List Lane) (c : Lane)
    (h : ambulanceScan ac lanes = some c) :
    ∃ pre post, lanes = pre ++ c :: post ∧ (∀ l ∈ pre, ac l = 0) ∧ 0 < ac c := by
  induction lanes with
  | nil => simp [ambulanceScan] at h
  | cons lane rest ih =>
    unfold ambulanceScan at h
    by_cases hpos : ac lane > 0
    · rw [if_pos hpos] at h
      injection h with h
      subst h
      exact ⟨[], rest, rfl, by simp, hpos⟩
    · rw [if_neg hpos] at h
      obtain ⟨pre, post, hsplit, hpre, hc⟩ := ih h
      refine ⟨lane :: pre, post, by simp [hsplit], ?_, hc⟩
      intro l hl
      rcases List.mem_cons.mp hl with rfl | hl
      · omega
      · exact hpre l hl

theorem ambulanceScan_none (ac : Lane → Nat) (lanes : List Lane)
    (h : ambulanceScan ac lanes = none) : ∀ l ∈ lanes, ac l = 0 := by
  induction lanes with
  | nil => simp
  | cons lane rest ih =>
    unfold ambulanceScan at h
    by_cases hpos : ac lane > 0
    · rw [if_pos hpos] at h
      exact absurd h (by simp)
    · rw [if_neg hpos] at h
      intro l hl
      rcases List.mem_cons.mp hl with rfl | hl
      · omega
      · exact ih h l hl

theorem ambulanceScan_of_all_zero (ac : Lane → Nat) (lanes : List Lane)
    (h : ∀ l ∈ lanes, ac l = 0) : ambulanceScan ac lanes = none := by
  induction lanes with
  | nil => rfl
  | cons lane rest ih =>
    unfold ambulanceScan
    have h0 : ac lane = 0 := h lane (List.mem_cons_self _ _)
    rw [if_neg (by omega)]
    exact ih (fun l hl => h l (List.mem_cons_of_mem _ hl))

/-- The scan for the maximum either leaves its accumulator alone, when no lane
exceeds `max`, or ends on a lane that strictly exceeds every lane before it and
is not exceeded by any lane after it. -/
theorem maxScan_spec (vc : Lane → Nat) (lanes : List Lane) (max : Nat) (p : Option Lane) :
    ((∀ l ∈ lanes, vc l ≤ max) ∧ maxScan vc lanes (max, p) = (max, p)) ∨
    (∃ c pre post, lanes = pre ++ c :: post ∧ maxScan vc lanes (max, p) = (vc c, some c) ∧
      max < vc c ∧ (∀ l ∈ pre, vc l < vc c) ∧ (∀ l ∈ post, vc l ≤ vc c)) := by
  induction lanes generalizing max p with
  | nil => exact Or.inl ⟨by simp, rfl⟩
  | cons lane rest ih =>
    unfold maxScan
    by_cases hgt : vc lane > max
    · rw [if_pos hgt]
      rcases ih (vc lane) (some lane) with ⟨hall, hres⟩ | ⟨c, pre, post, hsplit, hres, hlt, hpre, hpost⟩
      · exact Or.inr ⟨lane, [], rest, rfl, hres, hgt, by simp, hall⟩
      · refine Or.inr ⟨c, lane :: pre, post, by simp [hsplit], hres, by omega, ?_, hpost⟩
        intro l hl
        rcases List.mem_cons.mp hl with rfl | hl
        · exact hlt
        · exact hpre l hl
    · rw [if_neg hgt]
      rcases ih max p with ⟨hall, hres⟩ | ⟨c, pre, post, hsplit, hres, hlt, hpre, hpost⟩
      · refine Or.inl ⟨?_, hres⟩
        intro l hl
        rcases List.mem_cons.mp hl with rfl | hl
        · omega
        · exact hall l hl
      · refine Or.inr ⟨c, lane :: pre, post, by simp [hsplit], hres, hlt, ?_, hpost⟩
        intro l hl
        rcases List.mem_cons.mp hl with rfl | hl
        · omega
        · exact hpre l hl

theorem cycleBegin_serves (s : Junction) (c : Lane) (hsel : selectPrioritized s.reg = some c)
    (hpos : 0 < s.reg.vehicleCounts c) :
    (cycleBegin s).2 = some (c, getPairedLane c) := by
  unfold cycleBegin
  rw [hsel]
  simp only []
  rw [if_neg (by omega)]

/-- C1: in a registry reached from the initial one by additions, departure
clears and resets, if some lane holds an ambulance then SELECT chooses the
first lane of the enumeration order whose ambulance count is positive (every
lane before it has none), and the cycle serves that lane. -/
theorem ambulance_preemption (ops : List RegistryOp)
    (h : ∃ lane, 0 < (applyOps ops Registry.initial).ambulanceCounts lane) :
    ∃ c pre post, laneKeys = pre ++ c :: post ∧
      (∀ l ∈ pre, (applyOps ops Registry.initial).ambulanceCounts l = 0) ∧
      0 < (applyOps ops Registry.initial).ambulanceCounts c ∧
      selectPrioritized (applyOps ops Registry.initial) = some c ∧
      ∀ s : Junction, s.reg = applyOps ops Registry.initial →
        (cycleBegin s).2 = some (c, getPairedLane c) := by
  have hinv := registryInv_applyOps ops Registry.initial registryInv_initial
  generalize applyOps ops Registry.initial = r at h hinv ⊢
  obtain ⟨lane, hlane⟩ := h
  cases hscan : ambulanceScan r.ambulanceCounts laneKeys with
  | none =>
    have := ambulanceScan_none _ _ hscan lane (mem_laneKeys lane)
    omega
  | some c =>
    obtain ⟨pre, post, hsplit, hpre, hc⟩ := ambulanceScan_some _ _ _ hscan
    have hsel : selectPrioritized r = some c := by
      unfold selectPrioritized
      rw [hscan]
    refine ⟨c, pre, post, hsplit, hpre, hc, hsel, ?_⟩
    intro s hs
    have hle := registryInv_amb_le r hinv c
    exact cycleBegin_serves s c (by rw [hs]; exact hsel) (by rw [hs]; omega)

/-- Witness for C1: one ambulance on `yleft` and three cars on `yright`. -/
theorem ambulance_preemption_witness :
    selectPrioritized (applyOps [.add "yleft" "ambulance", .add "yright" "car",
        .add "yright" "car", .add "yright" "car"] Registry.initial) = some .yleft ∧
    ∃ c pre post, laneKeys = pre ++ c :: post ∧
      (∀ l ∈ pre, (applyOps [.add "yleft" "ambulance", .add "yright" "car",
        .add "yright" "car", .add "yright" "car"] Registry.initial).ambulanceCounts l = 0) ∧
      0 < (applyOps [.add "yleft" "ambulance", .add "yright" "car",
        .add "yright" "car", .add "yright" "car"] Registry.initial).ambulanceCounts c ∧
      selectPrioritized (applyOps [.add "yleft" "ambulance", .add "yright" "car",
        .add "yright" "car", .add "yright" "car"] Registry.initial) = some c ∧
      ∀ s : Junction, s.reg = applyOps [.add "yleft" "ambulance", .add "yright" "car",
        .add "yright" "car", .add "yright" "car"] Registry.initial →
        (cycleBegin s).2 = some (c, getPairedLane c) :=
  ⟨by decide, ambulance_preemption _ ⟨.yleft, by decide⟩⟩

/-- C2: when no lane holds an ambulance and some lane holds a vehicle, SELECT
chooses a lane whose vehicle count is the greatest of all eight, every lane
before it in the enumeration order has a strictly smaller count, and the cycle
serves that lane. -/
theorem max_count_selection (r : Registry) (hamb : ∀ lane, r.ambulanceCounts lane = 0)
    (hveh : ∃ lane, 0 < r.vehicleCounts lane) :
    ∃ c pre post, laneKeys = pre ++ c :: post ∧
      (∀ l, r.vehicleCounts l ≤ r.vehicleCounts c) ∧
      (∀ l ∈ pre, r.vehicleCounts l < r.vehicleCounts c) ∧
      selectPrioritized r = some c ∧
      ∀ s : Junction, s.reg = r → (cycleBegin s).2 = some (c, getPairedLane c) := by
  have hscan : ambulanceScan r.ambulanceCounts laneKeys = none :=
    ambulanceScan_of_all_zero _ _ (fun l _ => hamb l)
  obtain ⟨lane, hlane⟩ := hveh
  rcases maxScan_spec r.vehicleCounts laneKeys 0 none with
    ⟨hall, _⟩ | ⟨c, pre, post, hsplit, hres, hlt, hpre, hpost⟩
  · have := hall lane (mem_laneKeys lane)
    omega
  · have hsel : selectPrioritized r = some c := by
      unfold selectPrioritized
      rw [hscan, hres]
    refine ⟨c, pre, post, hsplit, ?_, hpre, hsel, ?_⟩
    · intro l
      have hl : l ∈ pre ++ c :: post := hsplit ▸ mem_laneKeys l
      rcases List.mem_append.mp hl with hl | hl
      · exact Nat.le_of_lt (hpre l hl)
      · rcases List.mem_cons.mp hl with rfl | hl
        · exact Nat.le_refl _
        · exact hpost l hl
    · intro s hs
      exact cycleBegin_serves s c (by rw [hs]; exact hsel) (by rw [hs]; omega)

/-- Witness for C2: two cars on `xtop` and one car on `xbottom`. -/
theorem max_count_selection_witness :
    selectPrioritized (applyOps [.add "xtop" "car", .add "xtop" "car",
        .add "xbottom" "car"] Registry.initial) = some .xtop ∧
    ∃ c pre post, laneKeys = pre ++ c :: post ∧
      (∀ l, (applyOps [.add "xtop" "car", .add "xtop" "car",
          .add "xbottom" "car"] Registry.initial).vehicleCounts l
        ≤ (applyOps [.add "xtop" "car", .add "xtop" "car",
          .add "xbottom" "car"] Registry.initial).vehicleCounts c) ∧
      (∀ l ∈ pre, (applyOps [.add "xtop" "car", .add "xtop" "car",
          .add "xbottom" "car"] Registry.initial).vehicleCounts l
        < (applyOps [.add "xtop" "car", .add "xtop" "car",
          .add "xbottom" "car"] Registry.initial).vehicleCounts c) ∧
      selectPrioritized (applyOps [.add "xtop" "car", .add "xtop" "car",
          .add "xbottom" "car"] Registry.initial) = some c ∧
      ∀ s : Junction, s.reg = applyOps [.add "xtop" "car", .add "xtop" "car",
          .add "xbottom" "car"] Registry.initial →
        (cycleBegin s).2 = some (c, getPairedLane c) :=
  ⟨by decide, max_count_selection _ (by decide) ⟨.xtop, by decide⟩⟩

/-! ## HALT and reset -/

theorem allLanesRed_red (lights : Lights) (g : LightGroup) :
    showsOnly (allLanesRed lights g) .red := by
  intro c
  cases g <;> cases c <;> rfl

theorem cycleBegin_cases (s : Junction) :
    (cycleBegin s = ({ s with lights := allLanesRed s.lights }, none) ∧
      ∀ p, selectPrioritized s.reg = some p → s.reg.vehicleCounts p = 0) ∨
    (∃ p, selectPrioritized s.reg = some p ∧ 0 < s.reg.vehicleCounts p ∧
      (cycleBegin s).2 = some (p, getPairedLane p)) := by
  unfold cycleBegin
  cases hsel : selectPrioritized s.reg with
  | none => exact Or.inl ⟨rfl, by simp⟩
  | some p =>
    by_cases h0 : s.reg.vehicleCounts p = 0
    · refine Or.inl ⟨by simp [h0], ?_⟩
      intro p1 hp1
      injection hp1 with hp1
      rw [← hp1]
      exact h0
    · refine Or.inr ⟨p, rfl, by omega, ?_⟩
      simp [h0]

theorem runTrafficCycle_halt (e1 e2 : List Event) (s halted : Junction)
    (h : cycleBegin s = (halted, none)) : runTrafficCycle e1 e2 s = (false, halted) := by
  unfold runTrafficCycle
  rw [h]

theorem runTrafficCycle_serve (e1 e2 : List Event) (s : Junction) (p : Lane) (q : Option Lane)
    (h : (cycleBegin s).2 = some (p, q)) : (runTrafficCycle e1 e2 s).1 = true := by
  unfold runTrafficCycle
  rcases hc : cycleBegin s with ⟨s1, sel⟩
  rw [hc] at h
  simp only at h
  subst h
  rfl

/-- C3: one run of `runTrafficCycle` either returns `false` with every light
group showing red and with the registry, the pending departures and the served
pairs untouched, or serves a prioritized lane whose vehicle count is positive;
and it returns `false` whenever every lane has zero vehicles. -/
theorem cycle_halts_or_serves_occupied (s : Junction) :
    (((cycleBegin s).2 = none ∧
        (∀ e1 e2, runTrafficCycle e1 e2 s = (false, (cycleBegin s).1)) ∧
        (∀ g, showsOnly ((cycleBegin s).1.lights g) .red) ∧
        (cycleBegin s).1.reg = s.reg ∧ (cycleBegin s).1.timers = s.timers ∧
        (cycleBegin s).1.completed = s.completed) ∨
      (∃ p q, (cycleBegin s).2 = some (p, q) ∧ 0 < s.reg.vehicleCounts p ∧
        ∀ e1 e2, (runTrafficCycle e1 e2 s).1 = true)) ∧
    ((∀ lane, s.reg.vehicleCounts lane = 0) →
      (cycleBegin s).2 = none ∧ ∀ e1 e2, (runTrafficCycle e1 e2 s).1 = false) := by
  rcases cycleBegin_cases s with ⟨hhalt, _⟩ | ⟨p, hsel, hpos, hserve⟩
  · have hrun : ∀ e1 e2, runTrafficCycle e1 e2 s = (false, (cycleBegin s).1) := by
      intro e1 e2
      rw [runTrafficCycle_halt e1 e2 s _ hhalt, hhalt]
    refine ⟨Or.inl ⟨by rw [hhalt], hrun, ?_, by rw [hhalt], by rw [hhalt], by rw [hhalt]⟩, ?_⟩
    · intro g
      rw [hhalt]
      exact allLanesRed_red s.lights g
    · intro _
      refine ⟨by rw [hhalt], ?_⟩
      intro e1 e2
      rw [hrun e1 e2]
  · refine ⟨Or.inr ⟨p, getPairedLane p, hserve, hpos, ?_⟩, ?_⟩
    · intro e1 e2
      exact runTrafficCycle_serve e1 e2 s p _ hserve
    · intro hzero
      have := hzero p
      omega

/-- Witness for C3: the freshly loaded page with no bulb lit. -/
theorem cycle_halts_or_serves_occupied_witness :
    (cycleBegin (Junction.initial (fun _ _ => false))).2 = none ∧
      ∀ e1 e2, (runTrafficCycle e1 e2 (Junction.initial (fun _ _ => false))).1 = false :=
  (cycle_halts_or_serves_occupied (Junction.initial (fun _ _ => false))).2 (fun _ => rfl)

theorem resetAll_vehicleCounts (r : Registry) (lane : Lane) :
    (resetAll r).vehicleCounts lane = 0 := by
  cases lane <;> rfl

theorem resetAll_ambulanceCounts (r : Registry) (lane : Lane) :
    (resetAll r).ambulanceCounts lane = 0 := by
  cases lane <;> rfl

theorem resetAll_vehicleElements (r : Registry) (lane : Lane) :
    (resetAll r).vehicleElements lane = [] := by
  cases lane <;> rfl

theorem hasVehicles_false_of_zero (r : Registry) (h : ∀ lane, r.vehicleCounts lane = 0) :
    hasVehicles r = false := by
  simp [hasVehicles, h]

/-- C6: after the delete action, whatever the registry and the bulbs were,
every lane has vehicle count 0, ambulance count 0 and an empty queue,
`hasVehicles` is false, and every light group is red or off, with no yellow or
green bulb active. -/
theorem reset_clears_everything (s : Junction) :
    (∀ lane, (Event.deleteClick.apply s).reg.vehicleCounts lane = 0 ∧
      (Event.deleteClick.apply s).reg.ambulanceCounts lane = 0 ∧
      (Event.deleteClick.apply s).reg.vehicleElements lane = []) ∧
    hasVehicles (Event.deleteClick.apply s).reg = false ∧
    ∀ g, (showsOnly ((Event.deleteClick.apply s).lights g) .red ∨
        isOff ((Event.deleteClick.apply s).lights g)) ∧
      (Event.deleteClick.apply s).lights g .yellow = false ∧
      (Event.deleteClick.apply s).lights g .green = false := by
  refine ⟨?_, ?_, ?_⟩
  · intro lane
    exact ⟨resetAll_vehicleCounts s.reg lane, resetAll_ambulanceCounts s.reg lane,
      resetAll_vehicleElements s.reg lane⟩
  · exact hasVehicles_false_of_zero _ (resetAll_vehicleCounts s.reg)
  · intro g
    exact ⟨Or.inr (fun _ => rfl), rfl, rfl⟩

/-! ## Lights during a served cycle -/

theorem laneToLight_lookup (lane : Lane) : laneToLight.lookup lane = some (groupOf lane) := by
  cases lane <;> rfl

theorem getPairedLane_eq (lane : Lane) : getPairedLane lane = some (pairOf lane) := by
  cases lane <;> rfl

theorem getPairedLane_groupOf (lane : Lane) :
    ∃ paired, getPairedLane lane = some paired ∧ groupOf paired = groupOf lane := by
  cases lane <;> exact ⟨_, rfl, rfl⟩

theorem showsOnly_only (color : Color) : showsOnly (only color) color :=
  fun _ => rfl

theorem isOff_dark : isOff dark :=
  fun _ => rfl

theorem setTrafficLightColor_apply (lane : Lane) (color : Color) (lights : Lights)
    (g : LightGroup) :
    setTrafficLightColor (some lane) color lights g
      = if g = groupOf lane then only color else lights g := by
  unfold setTrafficLightColor
  simp only [Option.bind, laneToLight_lookup]
  by_cases hg : g = groupOf lane
  · subst hg
    rw [if_pos rfl, Function.update_same]
    funext c
    by_cases hc : c = color
    · subst hc
      simp [only]
    · simp [only, hc, Function.update_noteq hc, groupOff]
  · rw [if_neg hg, Function.update_noteq hg]
    simp [groupOff, Function.update_noteq hg]

theorem settleOther_apply (vc : Lane → Nat) (p : Lane) (q : Option Lane) (lights : Lights)
    (lane : Lane) (g : LightGroup) :
    settleOther vc p q lights lane g
      = if lane = p ∨ some lane = q then lights g
        else if g = groupOf lane then (if vc lane = 0 then only .red else dark)
        else lights g := by
  unfold settleOther
  by_cases hskip : lane = p ∨ some lane = q
  · rw [if_pos hskip, if_pos hskip]
  · rw [if_neg hskip, if_neg hskip]
    by_cases h0 : vc lane = 0
    · rw [if_pos h0, setTrafficLightColor_apply]
      simp [h0]
    · rw [if_neg h0]
      simp only [laneToLight_lookup]
      by_cases hg : g = groupOf lane
      · subst hg
        simp only [groupOff, Function.update_same, if_pos rfl, if_neg h0]
        rfl
      · simp [groupOff, hg, Function.update_noteq hg]

/-- After the loop of lines 224-240 a group other than that of the prioritized
lane is red when the last lane of the group is empty and off otherwise. -/
theorem settle_other_group (vc : Lane → Nat) (p : Lane) (lights : Lights) (g : LightGroup)
    (hg : g ≠ groupOf p) :
    laneKeys.foldl (settleOther vc p (getPairedLane p)) lights g
      = if vc (lastLaneOf g) = 0 then only .red else dark := by
  cases p <;> cases g <;>
    first
    | exact absurd rfl hg
    | simp [laneKeys, List.foldl, settleOther_apply, getPairedLane_eq, pairOf,
        groupOf, lastLaneOf]

/-- The loop of lines 224-240 leaves the group of the prioritized lane alone. -/
theorem settle_own_group (vc : Lane → Nat) (p : Lane) (lights : Lights) :
    laneKeys.foldl (settleOther vc p (getPairedLane p)) lights (groupOf p)
      = lights (groupOf p) := by
  cases p <;>
    simp [laneKeys, List.foldl, settleOther_apply, getPairedLane_eq, pairOf, groupOf]

theorem cycleBegin_serve_lights (s : Junction) (p : Lane) (q : Option Lane)
    (h : (cycleBegin s).2 = some (p, q)) :
    q = getPairedLane p ∧ 0 < s.reg.vehicleCounts p ∧
    (cycleBegin s).1.lights
      = laneKeys.foldl (settleOther s.reg.vehicleCounts p (getPairedLane p))
          (setTrafficLightColor (getPairedLane p) .green
            (setTrafficLightColor (some p) .green s.lights)) := by
  unfold cycleBegin at h ⊢
  cases hsel : selectPrioritized s.reg with
  | none => rw [hsel] at h; simp at h
  | some p1 =>
    rw [hsel] at h
    simp only at h ⊢
    by_cases h0 : s.reg.vehicleCounts p1 = 0
    · rw [if_pos h0] at h
      simp at h
    · rw [if_neg h0] at h ⊢
      simp only [Option.some.injEq, Prod.mk.injEq] at h
      obtain ⟨hp, hq⟩ := h
      subst hp
      exact ⟨hq.symm, by omega, rfl⟩

theorem green_own_group (p : Lane) (lights : Lights) :
    setTrafficLightColor (getPairedLane p) .green
      (setTrafficLightColor (some p) .green lights) (groupOf p) = only .green := by
  obtain ⟨paired, hpair, hgroup⟩ := getPairedLane_groupOf p
  rw [hpair, setTrafficLightColor_apply, hgroup, if_pos rfl]

theorem started_other_group (s : Junction) (p : Lane) (q : Option Lane)
    (h : (cycleBegin s).2 = some (p, q)) (g : LightGroup) (hg : g ≠ groupOf p) :
    (cycleBegin s).1.lights g
      = if s.reg.vehicleCounts (lastLaneOf g) = 0 then only .red else dark := by
  obtain ⟨_, _, hlights⟩ := cycleBegin_serve_lights s p q h
  rw [hlights]
  exact settle_other_group _ p _ g hg

theorem started_own_group (s : Junction) (p : Lane) (q : Option Lane)
    (h : (cycleBegin s).2 = some (p, q)) :
    (cycleBegin s).1.lights (groupOf p) = only .green := by
  obtain ⟨_, _, hlights⟩ := cycleBegin_serve_lights s p q h
  rw [hlights, settle_own_group, green_own_group]

theorem last_lane_unique (M : Lane) (g : LightGroup)
    (hM : laneToLight.lookup M = some g)
    (hlast : ∀ N, laneToLight.lookup N = some g → laneKeys.indexOf N ≤ laneKeys.indexOf M) :
    M = lastLaneOf g := by
  have h1 := hlast (lastLaneOf g) (by cases g <;> rfl)
  rw [laneToLight_lookup] at hM
  injection hM with hM
  subst hM
  revert h1
  cases M <;> decide

theorem other_lane_other_group (p L : Lane) (hp : L ≠ p) (hq : some L ≠ getPairedLane p) :
    groupOf L ≠ groupOf p := by
  revert hp hq
  cases p <;> cases L <;> decide

/-- C8, as amended: when `runTrafficCycle` serves a lane, for every lane other
than the prioritized lane and its paired lane, the light group of that lane is,
when the GREEN wait begins, red if the last lane of the enumeration order that
maps to this group has zero vehicles, and off if that last lane has vehicles. -/
theorem other_group_follows_last_lane (s : Junction) (p : Lane) (q : Option Lane)
    (h : (cycleBegin s).2 = some (p, q)) (L M : Lane) (g : LightGroup)
    (hp : L ≠ p) (hq : some L ≠ q)
    (hL : laneToLight.lookup L = some g) (hM : laneToLight.lookup M = some g)
    (hlast : ∀ N, laneToLight.lookup N = some g → laneKeys.indexOf N ≤ laneKeys.indexOf M) :
    (s.reg.vehicleCounts M = 0 → showsOnly ((cycleBegin s).1.lights g) .red) ∧
    (0 < s.reg.vehicleCounts M → isOff ((cycleBegin s).1.lights g)) := by
  obtain ⟨hqeq, _, _⟩ := cycleBegin_serve_lights s p q h
  have hMlast := last_lane_unique M g hM hlast
  rw [laneToLight_lookup] at hL
  injection hL with hL
  have hg : g ≠ groupOf p := by
    rw [← hL]
    exact other_lane_other_group p L hp (by rw [← hqeq]; exact hq)
  have hlights := started_other_group s p q h g hg
  rw [← hMlast] at hlights
  constructor
  · intro h0
    rw [hlights, if_pos h0]
    exact showsOnly_only .red
  · intro hpos
    rw [hlights, if_neg (by omega)]
    exact isOff_dark

/-- Witness for C8 as amended: in `congested` the lane `xbottom` is not served
and the last lane of its group, `-xbottom`, holds vehicles, so the group is off. -/
theorem other_group_follows_last_lane_witness :
    isOff ((cycleBegin congested).1.lights .bottom) :=
  (other_group_follows_last_lane congested .xtop (some .negXtop) (by decide)
    .xbottom .negXbottom .bottom (by decide) (by decide) (by decide) (by decide)
    (by decide)).2 (by decide)

/-- Counterexample to C8 as stated: in `congested` the cycle serves `xtop`; the
lane `xbottom` is neither prioritized nor paired and has zero vehicles, yet its
group is off, not red; the lane `yleft` is neither prioritized nor paired and
has a vehicle, yet its group is red, not off. -/
theorem other_group_not_per_lane :
    (cycleBegin congested).2 = some (.xtop, some .negXtop) ∧
    congested.reg.vehicleCounts .xbottom = 0 ∧
    laneToLight.lookup .xbottom = some .bottom ∧
    ¬ showsOnly ((cycleBegin congested).1.lights .bottom) .red ∧
    0 < congested.reg.vehicleCounts .yleft ∧
    laneToLight.lookup .yleft = some .left ∧
    ¬ isOff ((cycleBegin congested).1.lights .left) := by
  refine ⟨by decide, by decide, by decide, ?_, by decide, by decide, ?_⟩
  · intro hred
    exact absurd (hred .red) (by decide)
  · intro hoff
    exact absurd (hoff .red) (by decide)

/-! ## One green group -/

theorem event_keeps_green_off (e : Event) (s : Junction) (g : LightGroup)
    (h : s.lights g .green = false) : (e.apply s).lights g .green = false := by
  cases e with
  | drop laneId vehicleType => exact h
  | deleteClick => rfl
  | elapse ms => exact h

theorem applyEvents_keeps_green_off (events : List Event) (s : Junction) (g : LightGroup)
    (h : s.lights g .green = false) : (applyEvents events s).lights g .green = false := by
  unfold applyEvents
  induction events generalizing s with
  | nil => exact h
  | cons e rest ih => exact ih _ (event_keeps_green_off e s g h)

theorem setPair_apply (p : Lane) (color : Color) (lights : Lights) (g : LightGroup) :
    setTrafficLightColor (getPairedLane p) color (setTrafficLightColor (some p) color lights) g
      = if g = groupOf p then only color else lights g := by
  obtain ⟨paired, hpair, hgroup⟩ := getPairedLane_groupOf p
  rw [hpair, setTrafficLightColor_apply, setTrafficLightColor_apply, hgroup]
  by_cases hg : g = groupOf p
  · rw [if_pos hg, if_pos hg]
  · rw [if_neg hg, if_neg hg]

theorem runTrafficCycle_serve_lights (e1 e2 : List Event) (s : Junction) (p : Lane)
    (q : Option Lane) (h : (cycleBegin s).2 = some (p, q)) :
    (runTrafficCycle e1 e2 s).2.lights
      = setTrafficLightColor q .red (setTrafficLightColor (some p) .red
          (applyEvents e2
            { applyEvents e1 (cycleBegin s).1 with
              lights := setTrafficLightColor q .yellow
                (setTrafficLightColor (some p) .yellow
                  (applyEvents e1 (cycleBegin s).1).lights) }).lights) := by
  unfold runTrafficCycle
  rcases hc : cycleBegin s with ⟨s1, sel⟩
  rw [hc] at h
  simp only at h
  subst h
  rfl

theorem runTrafficCycle_no_green (e1 e2 : List Event) (s : Junction) (g : LightGroup) :
    (runTrafficCycle e1 e2 s).2.lights g .green = false := by
  rcases cycleBegin_cases s with ⟨hhalt, _⟩ | ⟨p, _, _, hserve⟩
  · rw [runTrafficCycle_halt e1 e2 s _ hhalt]
    exact allLanesRed_red s.lights g .green
  · obtain ⟨hq, _, _⟩ := cycleBegin_serve_lights s p _ hserve
    rw [runTrafficCycle_serve_lights e1 e2 s p _ hserve, setPair_apply]
    by_cases hg : g = groupOf p
    · rw [if_pos hg]
      rfl
    · rw [if_neg hg]
      apply applyEvents_keeps_green_off
      show setTrafficLightColor (getPairedLane p) .yellow
        (setTrafficLightColor (some p) .yellow (applyEvents e1 (cycleBegin s).1).lights) g .green
          = false
      rw [setPair_apply, if_neg hg]
      apply applyEvents_keeps_green_off
      rw [started_other_group s p _ hserve g hg]
      by_cases h0 : s.reg.vehicleCounts (lastLaneOf g) = 0
      · rw [if_pos h0]
        rfl
      · rw [if_neg h0]
        rfl

/-- C10: every lane and its paired lane map to the same light group, and each
of the four groups is the image of exactly two lanes; whenever
`runTrafficCycle` serves a lane, at the start of the GREEN wait the group of
the prioritized lane shows green, it is the only group with an active green
bulb, and each other group is red or off; and when the cycle returns, whatever
happened during its waits, no group has an active green bulb. -/
theorem single_green_group :
    (∀ lane, ∃ g, laneToLight.lookup lane = some g ∧
      (getPairedLane lane).bind (fun paired => laneToLight.lookup paired) = some g) ∧
    (∀ g, (Finset.univ.filter (fun lane => laneToLight.lookup lane = some g)).card = 2) ∧
    (∀ (s : Junction) (p : Lane) (q : Option Lane), (cycleBegin s).2 = some (p, q) →
      ∃ g, laneToLight.lookup p = some g ∧
        showsOnly ((cycleBegin s).1.lights g) .green ∧
        (∀ g1, (cycleBegin s).1.lights g1 .green = true ↔ g1 = g) ∧
        ∀ g1, g1 ≠ g →
          showsOnly ((cycleBegin s).1.lights g1) .red ∨ isOff ((cycleBegin s).1.lights g1)) ∧
    (∀ (s : Junction) (e1 e2 : List Event) (g : LightGroup),
      (runTrafficCycle e1 e2 s).2.lights g .green = false) := by
  refine ⟨?_, ?_, ?_, ?_⟩
  · intro lane
    cases lane <;> exact ⟨_, rfl, rfl⟩
  · intro g
    cases g <;> decide
  · intro s p q h
    have hothers : ∀ g1, g1 ≠ groupOf p →
        showsOnly ((cycleBegin s).1.lights g1) .red ∨ isOff ((cycleBegin s).1.lights g1) := by
      intro g1 hg1
      rw [started_other_group s p q h g1 hg1]
      by_cases h0 : s.reg.vehicleCounts (lastLaneOf g1) = 0
      · rw [if_pos h0]
        exact Or.inl (showsOnly_only .red)
      · rw [if_neg h0]
        exact Or.inr isOff_dark
    refine ⟨groupOf p, laneToLight_lookup p, ?_, ?_, hothers⟩
    · rw [started_own_group s p q h]
      exact showsOnly_only .green
    · intro g1
      constructor
      · intro hgreen
        by_contra hne
        rcases hothers g1 hne with hred | hoff
        · rw [hred .green] at hgreen
          exact absurd hgreen (by decide)
        · rw [hoff .green] at hgreen
          exact absurd hgreen (by decide)
      · intro hg1
        rw [hg1, started_own_group s p q h]
        rfl
  · intro s e1 e2 g
    exact runTrafficCycle_no_green e1 e2 s g

/-- Witness for C10: in `congested` the cycle serves `xtop`, so the top group is
the one green group when the GREEN wait begins. -/
theorem single_green_group_witness :
    ∃ g, laneToLight.lookup .xtop = some g ∧
      showsOnly ((cycleBegin congested).1.lights g) .green ∧
      (∀ g1, (cycleBegin congested).1.lights g1 .green = true ↔ g1 = g) ∧
      ∀ g1, g1 ≠ g →
        showsOnly ((cycleBegin congested).1.lights g1) .red ∨
          isOff ((cycleBegin congested).1.lights g1) :=
  single_green_group.2.2.1 congested .xtop (some .negXtop) (by decide)

/-! ## The run action -/

theorem runLoop_of_no_vehicles (fuel : Nat) (s : Junction)
    (h : ∀ lane, s.reg.vehicleCounts lane = 0) : runLoop fuel s = some s := by
  cases fuel <;> simp [runLoop, hasVehicles_false_of_zero _ h]

/-- C7, as amended: when the run action starts with every lane at zero vehicles
and `isRunning` false, the loop exits at once, whatever the fuel: no cycle
runs, no lane is served, no departure is scheduled, every light group is left
exactly as it was, and `isRunning` is false again afterwards. -/
theorem run_on_empty_registry (fuel : Nat) (s : Junction)
    (hzero : ∀ lane, s.reg.vehicleCounts lane = 0) (hidle : s.isRunning = false) :
    ∃ s1, runClick fuel s = some s1 ∧ s1.isRunning = false ∧ s1.lights = s.lights ∧
      s1.completed = s.completed ∧ s1.timers = s.timers ∧ s1.reg = s.reg ∧ s1.now = s.now := by
  unfold runClick
  rw [hidle]
  simp only [Bool.false_eq_true, if_false]
  have hloop := runLoop_of_no_vehicles fuel
    { s with isRunning := true, stopRequested := false } hzero
  rw [hloop]
  exact ⟨_, rfl, rfl, rfl, rfl, rfl, rfl, rfl⟩

/-- Witness for C7 as amended: the run action on the page after a delete. -/
theorem run_on_empty_registry_witness :
    ∃ s1, runClick 3 afterDelete = some s1 ∧ s1.isRunning = false ∧
      s1.lights = afterDelete.lights ∧ s1.completed = afterDelete.completed ∧
      s1.timers = afterDelete.timers ∧ s1.reg = afterDelete.reg ∧ s1.now = afterDelete.now :=
  run_on_empty_registry 3 afterDelete (by decide) (by decide)

/-- Counterexample to C7 as stated: on the page after a delete every lane has
zero vehicles and `isRunning` is false, and the run action exits, for every
fuel, with `isRunning` false and with no light group showing red. -/
theorem run_on_empty_leaves_lights_off :
    (∀ lane, afterDelete.reg.vehicleCounts lane = 0) ∧ afterDelete.isRunning = false ∧
    ∀ fuel, ∃ s1, runClick fuel afterDelete = some s1 ∧ s1.isRunning = false ∧
      s1.completed = [] ∧ ∀ g, ¬ showsOnly (s1.lights g) .red := by
  refine ⟨by decide, by decide, ?_⟩
  intro fuel
  refine ⟨{ afterDelete with isRunning := false }, ?_, rfl, rfl, ?_⟩
  · cases fuel <;> rfl
  · intro g hred
    cases g <;> exact absurd (hred .red) (by decide)

/-! ## Re-selection while a departure is pending -/

/-- C9 at the failing input: with one car on `xtop`, the first cycle serves
`xtop` and schedules its departure callback for time 5000; at time 1650, when
the loop tests `hasVehicles` again, that callback is still pending, the lane
still holds its car, and SELECT chooses `xtop` again; the whole run serves
`xtop` four times.  The departure delay does exceed GREEN + YELLOW and the full
cycle. -/
theorem reselected_while_departing :
    (cycleBegin oneCar).2 = some (.xtop, some .negXtop) ∧
    (runTrafficCycle [.elapse GREEN_DURATION_MS] [.elapse YELLOW_DURATION_MS] oneCar).1 = true ∧
    beforeSecondSelect.now = 1650 ∧
    (5000, Lane.xtop) ∈ beforeSecondSelect.timers ∧
    beforeSecondSelect.reg.vehicleCounts .xtop = 1 ∧
    hasVehicles beforeSecondSelect.reg = true ∧
    (cycleBegin beforeSecondSelect).2 = some (.xtop, some .negXtop) ∧
    (runClick 4 oneCar).map (fun s => s.completed)
      = some [(.xtop, some .negXtop), (.xtop, some .negXtop), (.xtop, some .negXtop),
          (.xtop, some .negXtop)] ∧
    GREEN_DURATION_MS + YELLOW_DURATION_MS < DEPARTURE_MS ∧
    GREEN_DURATION_MS + YELLOW_DURATION_MS + CYCLE_DELAY_MS < DEPARTURE_MS := by
  refine ⟨by decide, by decide, by decide, by decide, by decide, by decide, by decide,
    by decide, by decide, by decide⟩

end Traffic
